import Mathlib

/-!
Verification of the Music-Tracker repository (src/music_tracker/music_tracker.py)
against its natural-language specification.

The Python source is shallowly embedded: pure helpers become Lean functions,
the SQLite-backed store becomes an explicit `DB` state threaded through the
operations, filesystem reads become explicit inputs (with `Except` results for
the calls that can raise), and Python exceptions caught by the source's
`try/except` blocks become explicit error branches.  Strings are Lean `String`s
and all character-level operations (lower-casing, substring search, prefix
test, stem extraction) are written out over `List Char` so that every
definition evaluates by kernel reduction.
-/

/-! ## Character and string primitives

`music_tracker.py` uses `str.lower()`, the `in` substring operator,
`str.startswith`, slicing, `int(...)` and `pathlib.Path.stem`.  They are
embedded below over `List Char`.  `lowerChar` models Python `str.lower` on the
ASCII range, which covers every marker string the program compares against.
-/

def lowerChar (c : Char) : Char :=
  if c.toNat ≥ 65 ∧ c.toNat ≤ 90 then Char.ofNat (c.toNat + 32) else c

def lowerCL (cs : List Char) : List Char := cs.map lowerChar

/-- Boolean test that `ps` is a prefix of the first list (Python `startswith`). -/
def isPrefixCL : List Char → List Char → Bool
  | _, [] => true
  | [], _ :: _ => false
  | c :: cs, p :: ps => c = p && isPrefixCL cs ps

/-- Boolean substring occurrence test (Python `pat in hay`). -/
def hasSubCL : List Char → List Char → Bool
  | [], ps => isPrefixCL [] ps
  | c :: cs, ps => isPrefixCL (c :: cs) ps || hasSubCL cs ps

/-- Python `pat in hay.lower()` for an already-lower-case pattern `pat`. -/
def containsLowered (hay pat : String) : Bool :=
  hasSubCL (lowerCL hay.toList) pat.toList

/-- Python `s.startswith(p)`. -/
def startsWithStr (s p : String) : Bool := isPrefixCL s.toList p.toList

/-- Python `s[:n]`. -/
def takeStr (s : String) (n : Nat) : String := ⟨s.toList.take n⟩

/-- Index of the last occurrence of `'.'` in a name (Python `name.rfind('.')`),
`none` when absent. -/
def lastDotIdx (cs : List Char) : Option Nat :=
  ((cs.enum.filter fun pr => pr.2 = '.').map fun pr => pr.1).getLast?

/-- Python `pathlib.PurePath.stem` on a file name: the name with its final
suffix removed, where a suffix only counts when the last dot is neither the
first nor the last character. -/
def stem (nm : String) : String :=
  match lastDotIdx nm.toList with
  | none => nm
  | some i => if 0 < i ∧ i < nm.toList.length - 1 then ⟨nm.toList.take i⟩ else nm

/-- Numeric value of an ASCII digit. -/
def digitVal (c : Char) : Option Nat :=
  if c.toNat ≥ 48 ∧ c.toNat ≤ 57 then some (c.toNat - 48) else none

/-- Reads a digit string left to right; `none` when a non-digit occurs or the
accumulator never started (empty input). -/
def digitsToNat : List Char → Option Nat → Option Nat
  | [], acc => acc
  | c :: cs, acc =>
    match digitVal c, acc with
    | some d, some a => digitsToNat cs (some (a * 10 + d))
    | some d, none => digitsToNat cs (some d)
    | none, _ => none

/-- Python `int(s)` restricted to the plain decimal strings the program feeds
it (an optional sign followed by digits); `none` models a raised `ValueError`. -/
def parseIntStr (s : String) : Option Int :=
  match s.toList with
  | '-' :: rest => (digitsToNat rest none).map fun n => -(n : Int)
  | cs => (digitsToNat cs none).map fun n => (n : Int)

/-! ## Filesystem path model

A discovered project file is identified by its `pathlib.Path`: the sequence of
path components.  `MPath.dirs` are the leading components (drive/root and the
ancestor directory names) and `MPath.filename` is the final component, so
`MPath.parts` is Python's `Path.parts` and `MPath.filename` is `Path.name`.
-/

structure MPath where
  dirs : List String
  filename : String
  deriving DecidableEq

def MPath.parts (p : MPath) : List String := p.dirs ++ [p.filename]

/-! ## Path Classifier (`MusicTracker._should_skip_file`, lines 135-172) -/

/-- Directory-marker list `skip_patterns` from `_should_skip_file`. -/
def skip_patterns : List String :=
  ["auto-backup", "auto-save", "backup", "temp", "tmp", ".backup", "_backup",
   "autosave", "recovery"]

/-- Filename-marker list `backup_filename_patterns` from `_should_skip_file`. -/
def backup_filename_patterns : List String :=
  [" [20", ".bak", "_bak", ".backup", "_backup", "~", ".tmp"]

/-- Embedding of `_should_skip_file`: the first loop tests every element of
`project_file.parts` (which includes the final filename component) against
`skip_patterns`, then the filename alone is tested against
`backup_filename_patterns`.  The unused local `file_path_str` of the source is
dropped. -/
def should_skip_file (p : MPath) : Bool :=
  (p.parts.any fun part => skip_patterns.any fun pat => containsLowered part pat)
  || (backup_filename_patterns.any fun pat => containsLowered p.filename pat)

/-- Noise policy exactly as the specification words it: only ANCESTOR directory
names are checked against the directory markers, and the file's own name is
checked only against the filename markers.  Kept separate from
`should_skip_file` so the two can be compared. -/
def specNoisePolicy (p : MPath) : Bool :=
  (p.dirs.any fun d => skip_patterns.any fun pat => containsLowered d pat)
  || (backup_filename_patterns.any fun pat => containsLowered p.filename pat)

/-- Path on which the source and the specification disagree: the filename
`tempo.flp` contains the directory marker `temp`, and the source's first loop
runs over all of `parts`, filename included. -/
def tempoPath : MPath := ⟨["clean"], "tempo.flp"⟩

/-- C1 counterexample: the claim states the classifier returns true only when
an ancestor DIRECTORY carries a directory marker or the filename carries a
filename marker; `clean/tempo.flp` has neither, yet `_should_skip_file`
returns true because it also matches the directory markers against the
filename component. -/
theorem should_skip_file_claim_counterexample :
    should_skip_file tempoPath = true ∧ specNoisePolicy tempoPath = false := by
  constructor
  · decide
  · decide

/-- C1 amended: `_should_skip_file` returns true exactly when some path
component — any ancestor directory name or the filename itself —
case-insensitively contains a directory marker, or the file's own name
case-insensitively contains a filename marker. -/
theorem should_skip_file_iff_component_marker (p : MPath) :
    should_skip_file p = true ↔
      ((∃ part ∈ p.parts, ∃ pat ∈ skip_patterns, containsLowered part pat = true)
        ∨ (∃ pat ∈ backup_filename_patterns, containsLowered p.filename pat = true)) := by
  simp [should_skip_file, List.any_eq_true]

/-! ## Project Resolver model (`MusicTracker._analyze_project_file`, lines 174-235)

The resolver reads filesystem metadata: `project_file.stat()` and
`parent_dir.iterdir()`.  Both can raise, and the whole body runs inside
`try/except Exception`, which returns `None` on any failure.  The two reads
are therefore inputs of type `Except`; the resolver consults `iterdirResult`
only on the code paths where the source actually calls `iterdir()` (the
`.logicx` folder test and the sibling-collection loop), so a `.flp` file
resolves even when its directory listing would fail.
-/

/-- Result of `project_file.stat()`.  Timestamps are carried as raw integers;
`hasBirthtime` records whether the platform exposes `st_birthtime`. -/
structure FileStat where
  st_size : Nat
  st_ctime : Int
  st_mtime : Int
  hasBirthtime : Bool
  st_birthtime : Int
  deriving DecidableEq

/-- One entry of `parent_dir.iterdir()`.  Entries of a single directory are
identified by name, so the source's `item != project_file` comparison becomes
a name comparison. -/
structure Entry where
  name : String
  isFile : Bool
  deriving DecidableEq

/-- Everything `_analyze_project_file` reads about one candidate file:
`project_file.name`, `str(project_file)`, the parent directory's name and
string form, and the two fallible filesystem reads. -/
structure AnalyzeInput where
  fileName : String
  filePath : String
  parentName : String
  parentPath : String
  statResult : Except String FileStat
  iterdirResult : Except String (List Entry)

/-- Mathematically exact round-half-to-even of the fraction `a / b` (for
`b > 0`), the rounding Python's `round` performs on the exactly representable
values this program produces. -/
def roundHalfEvenFrac (a b : ℤ) : ℤ :=
  let f : ℤ := Int.fdiv a b
  let r : ℤ := a - b * f
  if 2 * r < b then f
  else if b < 2 * r then f + 1
  else if f % 2 = 0 then f else f + 1

/-- Models `datetime.fromtimestamp(ts).date()`: the calendar rendering is
irrelevant to every claim, so the timestamp is carried through injectively. -/
def dateOfTimestamp (ts : Int) : String := toString ts

/-- Record returned by `_analyze_project_file` (the dict literal at lines
222-231).  `file_size_mb` stores `round(st_size / (1024*1024), 2)` exactly, as
an integer count of hundredths of a megabyte (the two-decimal value scaled by
100); `st_size / 2^20` is a dyadic rational, so the Python float holds it
exactly and the scaled integer loses nothing. -/
structure ProjectInfo where
  project_file_path : String
  project_folder_path : Option String
  daw_type : String
  detected_title : String
  file_size_mb : Int
  date_created : String
  date_modified : String
  additional_files : Option (List String)
  deriving DecidableEq

/-- Sibling-collection loop at lines 216-220: every entry of the project
folder other than the project file that is a regular file and is not hidden. -/
def collectAdditional (entries : List Entry) (fileName : String) : List String :=
  ((entries.filter fun it =>
    it.name ≠ fileName && it.isFile && !(startsWithStr it.name ".")).map
      fun it => it.name)

/-- Folder test for `.logicx` at lines 208-209: the parent directory's name
equals the file stem, or some other entry of the parent starts with the stem. -/
def logicxFolderTest (inp : AnalyzeInput) (entries : List Entry) : Bool :=
  inp.parentName = stem inp.fileName
  || entries.any fun sib => sib.name ≠ inp.fileName && startsWithStr sib.name (stem inp.fileName)

/-- Line 178: `round(st_size / (1024 * 1024), 2)`, held exactly as hundredths
of a megabyte. -/
def fileSizeHundredths (st : FileStat) : Int :=
  roundHalfEvenFrac (100 * (st.st_size : Int)) (1024 * 1024)

/-- Lines 181-190: prefer `st_birthtime` when the platform exposes it, fall
back to `st_ctime` (the inner `except` guarding `fromtimestamp` cannot fire in
this model, where the conversion is total). -/
def createdTs (st : FileStat) : Int :=
  if st.hasBirthtime then st.st_birthtime else st.st_ctime

/-- Result dict for the folder cases (`.song`/`.bwproject` always, `.logicx`
when the folder test passes): folder = parent, title = parent's name, sibling
list collected, `None` when the collected list is empty (lines 198-202,
210-211, 216-231). -/
def mkFolderInfo (inp : AnalyzeInput) (daw_name : String) (st : FileStat)
    (entries : List Entry) : ProjectInfo :=
  ⟨inp.filePath, some inp.parentPath, daw_name, inp.parentName, fileSizeHundredths st,
    dateOfTimestamp (createdTs st), dateOfTimestamp st.st_mtime,
    if (collectAdditional entries inp.fileName).isEmpty then none
    else some (collectAdditional entries inp.fileName)⟩

/-- Result dict for the standalone cases (`.flp` always, `.logicx` when the
folder test fails): no folder, title = file stem, no siblings (lines 194-195,
216-231). -/
def mkStandaloneInfo (inp : AnalyzeInput) (daw_name : String) (st : FileStat) : ProjectInfo :=
  ⟨inp.filePath, none, daw_name, stem inp.fileName, fileSizeHundredths st,
    dateOfTimestamp (createdTs st), dateOfTimestamp st.st_mtime, none⟩

/-- Embedding of `_analyze_project_file`.  The outer `try/except Exception`
maps every failing filesystem read to `none`; `iterdirResult` is consulted
exactly on the paths where the source calls `iterdir()`. -/
def analyze_project_file (inp : AnalyzeInput) (daw_name : String) (extension : String) :
    Option ProjectInfo :=
  match inp.statResult with
  | .error _ => none
  | .ok st =>
    if extension = ".song" ∨ extension = ".bwproject" then
      match inp.iterdirResult with
      | .error _ => none
      | .ok entries => some (mkFolderInfo inp daw_name st entries)
    else if extension = ".logicx" then
      match inp.iterdirResult with
      | .error _ => none
      | .ok entries =>
        if logicxFolderTest inp entries then some (mkFolderInfo inp daw_name st entries)
        else some (mkStandaloneInfo inp daw_name st)
    else
      some (mkStandaloneInfo inp daw_name st)

/-! ## Discovery Walker (`MusicTracker.detect_daw_projects`, lines 104-133) -/

/-- Extension-to-format table `daw_patterns` at lines 114-119, in dict order. -/
def daw_patterns : List (String × String) :=
  [(".flp", "FL Studio"), (".logicx", "Logic Pro"),
   (".song", "Studio One"), (".bwproject", "Bitwig")]

/-- One candidate yielded by `directory_path.rglob`, seen both as a path (for
the Path Classifier) and as resolver input. -/
structure Candidate where
  path : MPath
  inp : AnalyzeInput

/-- True when the candidate's `stat()` call fails. -/
def statFailed (c : Candidate) : Bool :=
  match c.inp.statResult with
  | .error _ => true
  | .ok _ => false

/-- Embedding of the scan loop at lines 123-131: for each pattern the `rglob`
matches (supplied by the oracle `rg`) are filtered by the Path Classifier and
resolved, keeping the non-`None` results. -/
def detect_daw_projects (rg : String → List Candidate) : List ProjectInfo :=
  daw_patterns.flatMap fun pe =>
    (rg pe.1).filterMap fun c =>
      if should_skip_file c.path then none else analyze_project_file c.inp pe.2 pe.1

/-- Siblings reported by a resolution result (empty both for a standalone
project and for a failed resolution). -/
def siblingsOf : Option ProjectInfo → List String
  | none => []
  | some info => info.additional_files.getD []

/-! ## Helper lemmas about the resolver -/

/-- A failing `stat()` makes the resolver return `None` for every format. -/
theorem analyze_none_of_stat_error (inp : AnalyzeInput) (daw ext e : String)
    (h : inp.statResult = .error e) : analyze_project_file inp daw ext = none := by
  obtain ⟨fn, fp, pn, pp, sr, ir⟩ := inp
  simp only at h
  subst h
  rfl

/-- Dropping the elements a `filterMap` sends to `none` does not change it. -/
theorem filterMap_eq_filterMap_filter {α β : Type} (f : α → Option β) (ok : α → Bool)
    (l : List α) (h : ∀ c ∈ l, ok c = false → f c = none) :
    l.filterMap f = (l.filter ok).filterMap f := by
  induction l with
  | nil => rfl
  | cons c t ih =>
    by_cases hc : ok c
    · simp only [List.filter_cons, hc, if_true, List.filterMap_cons]
      have ht := ih fun x hx hfx => h x (List.mem_cons_of_mem _ hx) hfx
      cases hfc : f c <;> simp [hfc, ht]
    · have hfc : f c = none := h c (List.mem_cons_self _ _) (by simpa using hc)
      simp only [List.filter_cons, hc, if_false, List.filterMap_cons, hfc]
      exact ih fun x hx hfx => h x (List.mem_cons_of_mem _ hx) hfx

/-! ## Claim C6 — the resolver fails soft and the walker skips and continues -/

/-- C6: the Project Resolver never surfaces an exception: whenever the
`stat()` metadata read fails, `_analyze_project_file` returns `None`, and the
Discovery Walker's output is unchanged when the candidates whose metadata read
fails are removed up front — a corrupt candidate contributes nothing and the
remaining matches are processed exactly as before. -/
theorem resolver_fails_soft_walker_continues :
    (∀ (inp : AnalyzeInput) (daw ext e : String),
      inp.statResult = .error e → analyze_project_file inp daw ext = none) ∧
    (∀ rg : String → List Candidate,
      detect_daw_projects rg
        = detect_daw_projects fun ext => (rg ext).filter fun c => !statFailed c) := by
  constructor
  · exact analyze_none_of_stat_error
  · intro rg
    unfold detect_daw_projects
    apply congrArg
    funext pe
    apply filterMap_eq_filterMap_filter
    intro c _ hok
    have hfail : statFailed c = true := by
      revert hok
      cases statFailed c <;> simp
    have : analyze_project_file c.inp pe.2 pe.1 = none := by
      revert hfail
      unfold statFailed
      cases hsr : c.inp.statResult with
      | error e => intro _; exact analyze_none_of_stat_error c.inp pe.2 pe.1 e hsr
      | ok st => intro hfail; cases hfail
    simp [this]

/-- Candidate whose metadata read fails. -/
def exBadInp : AnalyzeInput :=
  ⟨"Track.flp", "/root/Track.flp", "root", "/root", .error "Permission denied", .ok []⟩

/-- C6 witness: a concrete unreadable candidate resolves to `None`. -/
theorem resolver_fails_soft_walker_continues_witness :
    analyze_project_file exBadInp "FL Studio" ".flp" = none :=
  resolver_fails_soft_walker_continues.1 exBadInp "FL Studio" ".flp" "Permission denied" rfl


/-! ## Unfolding lemmas for the resolver branches -/

/-- On a dedicated-folder extension with both reads succeeding, the resolver
returns the folder-case record. -/
theorem analyze_eq_of_dedicated (inp : AnalyzeInput) (daw ext : String)
    (st : FileStat) (entries : List Entry)
    (hext : ext = ".song" ∨ ext = ".bwproject")
    (hst : inp.statResult = .ok st)
    (hit : inp.iterdirResult = .ok entries) :
    analyze_project_file inp daw ext = some (mkFolderInfo inp daw st entries) := by
  obtain ⟨fn, fp, pn, pp, sr, ir⟩ := inp
  simp only at hst hit
  subst hst
  subst hit
  rcases hext with h | h <;> subst h <;> rfl

/-- On `.logicx` with both reads succeeding, the resolver returns the record
selected by the folder test. -/
theorem analyze_eq_of_logicx (inp : AnalyzeInput) (daw : String)
    (st : FileStat) (entries : List Entry)
    (hst : inp.statResult = .ok st)
    (hit : inp.iterdirResult = .ok entries) :
    analyze_project_file inp daw ".logicx"
      = if logicxFolderTest inp entries then some (mkFolderInfo inp daw st entries)
        else some (mkStandaloneInfo inp daw st) := by
  obtain ⟨fn, fp, pn, pp, sr, ir⟩ := inp
  simp only at hst hit
  subst hst
  subst hit
  rfl

/-! ## Claim C4 — dedicated-folder formats (`.song`, `.bwproject`) -/

/-- C4: for the formats that always live inside a dedicated folder, resolution
reports the containing directory as the project folder, the containing
directory's name as the detected title, and as siblings exactly the non-hidden
regular files of that directory other than the project file itself. -/
theorem resolver_dedicated_folder (inp : AnalyzeInput) (daw ext : String)
    (st : FileStat) (entries : List Entry)
    (hext : ext = ".song" ∨ ext = ".bwproject")
    (hst : inp.statResult = .ok st)
    (hit : inp.iterdirResult = .ok entries) :
    (analyze_project_file inp daw ext).isSome = true ∧
    (analyze_project_file inp daw ext).map ProjectInfo.project_folder_path
      = some (some inp.parentPath) ∧
    (analyze_project_file inp daw ext).map ProjectInfo.detected_title
      = some inp.parentName ∧
    siblingsOf (analyze_project_file inp daw ext)
      = ((entries.filter fun it =>
            it.name ≠ inp.fileName && it.isFile && !(startsWithStr it.name ".")).map
          fun it => it.name) := by
  rw [analyze_eq_of_dedicated inp daw ext st entries hext hst hit]
  refine ⟨rfl, rfl, rfl, ?_⟩
  show siblingsOf (some (mkFolderInfo inp daw st entries))
    = collectAdditional entries inp.fileName
  simp only [siblingsOf, mkFolderInfo]
  by_cases hL : (collectAdditional entries inp.fileName).isEmpty
  · rw [List.isEmpty_iff] at hL
    simp [hL]
  · simp [hL]

/-- Concrete Studio One example `/root/Song/Song.song` with sibling `Song.wav`. -/
def exStat4 : FileStat := ⟨3145728, 100, 200, false, 0⟩

/-- Directory listing of `/root/Song`. -/
def exEntries4 : List Entry := [⟨"Song.song", true⟩, ⟨"Song.wav", true⟩]

/-- Resolver input for `/root/Song/Song.song`. -/
def exInp4 : AnalyzeInput :=
  ⟨"Song.song", "/root/Song/Song.song", "Song", "/root/Song", .ok exStat4, .ok exEntries4⟩

/-- C4 witness: `/root/Song/Song.song` with sibling `/root/Song/Song.wav`
resolves to folder `/root/Song`, title `Song`, siblings `[Song.wav]`. -/
theorem resolver_dedicated_folder_witness :
    (analyze_project_file exInp4 "Studio One" ".song").map ProjectInfo.project_folder_path
      = some (some "/root/Song") ∧
    (analyze_project_file exInp4 "Studio One" ".song").map ProjectInfo.detected_title
      = some "Song" ∧
    siblingsOf (analyze_project_file exInp4 "Studio One" ".song") = ["Song.wav"] := by
  have h := resolver_dedicated_folder exInp4 "Studio One" ".song" exStat4 exEntries4
    (Or.inl rfl) rfl rfl
  refine ⟨h.2.1, h.2.2.1, ?_⟩
  rw [h.2.2.2]
  decide

/-! ## Claim C5 — the ambiguous `.logicx` format -/

/-- C5: a Logic Pro file is resolved into its parent folder (folder = parent
directory, title = parent directory's name) exactly when the parent
directory's name equals the file stem or some other entry of the parent starts
with that stem; otherwise it is standalone: no folder, no siblings, title =
file stem. -/
theorem resolver_logicx (inp : AnalyzeInput) (daw : String)
    (st : FileStat) (entries : List Entry)
    (hst : inp.statResult = .ok st)
    (hit : inp.iterdirResult = .ok entries) :
    ((analyze_project_file inp daw ".logicx").map ProjectInfo.project_folder_path
        = some (some inp.parentPath) ↔ logicxFolderTest inp entries = true) ∧
    (logicxFolderTest inp entries = true →
      (analyze_project_file inp daw ".logicx").map ProjectInfo.detected_title
        = some inp.parentName) ∧
    (logicxFolderTest inp entries = false →
      (analyze_project_file inp daw ".logicx").map ProjectInfo.project_folder_path
          = some none ∧
      (analyze_project_file inp daw ".logicx").map ProjectInfo.detected_title
          = some (stem inp.fileName) ∧
      siblingsOf (analyze_project_file inp daw ".logicx") = []) := by
  rw [analyze_eq_of_logicx inp daw st entries hst hit]
  by_cases hc : logicxFolderTest inp entries = true
  · rw [if_pos hc]
    refine ⟨?_, fun _ => rfl, fun hfalse => ?_⟩
    · simp [mkFolderInfo, hc]
    · rw [hfalse] at hc
      cases hc
  · have hc0 : logicxFolderTest inp entries = false := by
      revert hc
      cases logicxFolderTest inp entries <;> simp
    rw [if_neg hc]
    refine ⟨?_, fun htrue => ?_, fun _ => ⟨rfl, rfl, rfl⟩⟩
    · simp [mkStandaloneInfo, hc0]
    · rw [htrue] at hc0
      cases hc0

/-- Standalone Logic Pro example: `/root/Projects/Track.logicx` whose parent
is not named after it and has no entry starting with `Track`. -/
def exStat5 : FileStat := ⟨1048576, 10, 20, true, 5⟩

/-- Directory listing of `/root/Projects`. -/
def exEntries5 : List Entry := [⟨"Track.logicx", false⟩, ⟨"Other.txt", true⟩]

/-- Resolver input for `/root/Projects/Track.logicx`. -/
def exInp5 : AnalyzeInput :=
  ⟨"Track.logicx", "/root/Projects/Track.logicx", "Projects", "/root/Projects",
    .ok exStat5, .ok exEntries5⟩

/-- C5 witness: the standalone case at a concrete input — no folder, no
siblings, title equals the stem `Track`. -/
theorem resolver_logicx_witness :
    (analyze_project_file exInp5 "Logic Pro" ".logicx").map ProjectInfo.project_folder_path
      = some none ∧
    (analyze_project_file exInp5 "Logic Pro" ".logicx").map ProjectInfo.detected_title
      = some "Track" ∧
    siblingsOf (analyze_project_file exInp5 "Logic Pro" ".logicx") = [] := by
  have h := (resolver_logicx exInp5 "Logic Pro" exStat5 exEntries5 rfl rfl).2.2 (by decide)
  refine ⟨h.1, ?_, h.2.2⟩
  rw [h.2.1]
  decide

/-! ## Claim C10 — size in megabytes, two decimal places -/

/-- Size policy as the specification words it: the size in bytes divided by
1,048,576, rounded to two decimal places — held exactly as hundredths of a
megabyte. -/
def mbTwoDecimalsScaled (bytes : Nat) : Int :=
  roundHalfEvenFrac (100 * (bytes : Int)) 1048576

/-- C10: every successfully resolved project reports as its file size the
byte size divided by 1,048,576 rounded to two decimal places (the resolver's
`1024 * 1024` divisor and the specification's `1,048,576` agree). -/
theorem resolver_size_two_decimals (inp : AnalyzeInput) (daw ext : String)
    (st : FileStat) (info : ProjectInfo)
    (hst : inp.statResult = .ok st)
    (h : analyze_project_file inp daw ext = some info) :
    info.file_size_mb = mbTwoDecimalsScaled st.st_size := by
  obtain ⟨fn, fp, pn, pp, sr, ir⟩ := inp
  simp only at hst
  subst hst
  simp only [analyze_project_file] at h
  split at h
  · split at h
    · simp at h
    · simp only [Option.some.injEq] at h
      subst h
      norm_num [mkFolderInfo, fileSizeHundredths, mbTwoDecimalsScaled]
  · split at h
    · split at h
      · simp at h
      · split at h
        · simp only [Option.some.injEq] at h
          subst h
          norm_num [mkFolderInfo, fileSizeHundredths, mbTwoDecimalsScaled]
        · simp only [Option.some.injEq] at h
          subst h
          norm_num [mkStandaloneInfo, fileSizeHundredths, mbTwoDecimalsScaled]
    · simp only [Option.some.injEq] at h
      subst h
      norm_num [mkStandaloneInfo, fileSizeHundredths, mbTwoDecimalsScaled]

/-- C10 witness: a file of exactly 3,145,728 bytes is reported as 3.00 MB
(300 hundredths of a megabyte). -/
theorem resolver_size_two_decimals_witness :
    (mkFolderInfo exInp4 "Studio One" exStat4 exEntries4).file_size_mb
      = mbTwoDecimalsScaled 3145728 ∧
    mbTwoDecimalsScaled 3145728 = 300 :=
  ⟨resolver_size_two_decimals exInp4 "Studio One" ".song" exStat4
      (mkFolderInfo exInp4 "Studio One" exStat4 exEntries4) rfl rfl,
    by decide⟩

/-! ## Catalog Store model (`setup_database`, lines 40-102)

The three SQLite tables become three lists of records plus a fresh-id counter
per table (SQLite assigns `INTEGER PRIMARY KEY` rowids 1, 2, 3, …).  `DATE`
columns hold their SQLite text form.  The `date_discovered`/`date_refined`/
`date_rejected` columns defaulting to `CURRENT_DATE` are environment input no
claim touches and are not modelled.  The `UNIQUE` constraint on
`raw_projects.project_file_path` and the `CHECK(rating >= 1 AND rating <= 10)`
constraint on `refined_projects.rating` are enforced by the insert operations
below, as SQLite enforces them on `INSERT`.
-/

/-- Row of `raw_projects` (lines 46-60). -/
structure RawProject where
  id : Nat
  project_file_path : String
  project_folder_path : Option String
  daw_type : String
  detected_title : String
  file_size_mb : Option Int
  date_created : Option String
  date_modified : Option String
  additional_files : Option (List String)
  notes : Option String
  deriving DecidableEq

/-- Row of `refined_projects` (lines 63-85).  `tags` keeps the structured list
whose JSON rendering the source stores. -/
structure RefinedProject where
  id : Nat
  raw_project_id : Option Nat
  title : String
  description : Option String
  genre : Option String
  bpm : Option Int
  key_signature : Option String
  year : Option Int
  status : String
  rating : Option Int
  tags : Option (List String)
  collaboration : Option String
  project_file_path : String
  project_folder_path : Option String
  daw_type : String
  file_size_mb : Option Int
  date_created : Option String
  deriving DecidableEq

/-- Row of `rejected_projects` (lines 88-99). -/
structure RejectedProject where
  id : Nat
  raw_project_id : Option Nat
  reason : Option String
  project_file_path : String
  detected_title : Option String
  daw_type : Option String
  deriving DecidableEq

/-- The whole store. -/
structure DB where
  raw : List RawProject
  refined : List RefinedProject
  rejected : List RejectedProject
  rawNextId : Nat
  refinedNextId : Nat
  rejectedNextId : Nat
  deriving DecidableEq

/-- Freshly initialized store (`setup_database` creates three empty tables). -/
def setup_database : DB := ⟨[], [], [], 1, 1, 1⟩

/-- SQLite's view of the `UNIQUE` column: does some discovered row already
hold this path? -/
def pathExists (db : DB) (path : String) : Bool :=
  db.raw.any fun r => r.project_file_path == path

/-- Row built by the `INSERT INTO raw_projects` at lines 251-265 (the `notes`
column is not in the insert list and stays NULL). -/
def rawOfInfo (idv : Nat) (p : ProjectInfo) : RawProject :=
  ⟨idv, p.project_file_path, p.project_folder_path, p.daw_type, p.detected_title,
    some p.file_size_mb, some p.date_created, some p.date_modified,
    p.additional_files, none⟩

/-- One iteration of the `add_directory` loop: the insert succeeds and counts,
or the `UNIQUE` constraint fires, `sqlite3.IntegrityError` is caught, the row
is reported as already existing and nothing changes. -/
def insertRawProject (db : DB) (p : ProjectInfo) : DB × Bool :=
  if pathExists db p.project_file_path then (db, false)
  else
    (⟨db.raw ++ [rawOfInfo db.rawNextId p], db.refined, db.rejected,
      db.rawNextId + 1, db.refinedNextId, db.rejectedNextId⟩, true)

/-- Embedding of `add_directory` (lines 237-276) over the candidate records
the scan produced: inserts each in order and counts the genuinely new ones.
Scanning a missing directory or finding nothing yields the empty candidate
list, for which this returns the untouched store and 0. -/
def add_directory : DB → List ProjectInfo → DB × Nat
  | db, [] => (db, 0)
  | db, p :: ps =>
    let step := insertRawProject db p
    let rest := add_directory step.1 ps
    (rest.1, (if step.2 then 1 else 0) + rest.2)

/-! ## Detail lookup (`show_project_details`, lines 327-383)

The lifecycle operations call it with an integer identifier, so only the
numeric branch is embedded: first `raw_projects` by id, then
`refined_projects` by id.
-/

/-- Which table a detail lookup came from (the source's `source_table` tag and
resulting dict shape). -/
inductive Details where
  | raw (p : RawProject)
  | refined (p : RefinedProject)

/-- Numeric-identifier branch of `show_project_details`. -/
def show_project_details (db : DB) (ident : Nat) : Option Details :=
  match db.raw.find? fun r => r.id == ident with
  | some r => some (.raw r)
  | none => (db.refined.find? fun r => r.id == ident).map .refined

/-! ## Lifecycle operations -/

/-- Keyword metadata accepted by `refine_project` (the `**metadata` mapping;
every key the source reads, absent key = absent entry). -/
structure Metadata where
  title : Option String := none
  description : Option String := none
  genre : Option String := none
  bpm : Option Int := none
  key_signature : Option String := none
  year : Option Int := none
  status : Option String := none
  rating : Option Int := none
  tags : Option (List String) := none
  collaboration : Option String := none
  deriving DecidableEq

/-- SQLite `CHECK(rating >= 1 AND rating <= 10)`: NULL passes, an integer must
lie in the range. -/
def ratingOk : Option Int → Bool
  | none => true
  | some r => 1 ≤ r && r ≤ 10

/-- Year back-fill at lines 409-412: when the supplied year is absent (or the
falsy 0) and the source record carries a creation date, the year is parsed
from its first four characters; the outer `none` models the `ValueError` a
non-numeric prefix would raise (caught by the surrounding `except`). -/
def computeYear (mdYear : Option Int) (date_created : Option String) : Option (Option Int) :=
  if mdYear = none ∨ mdYear = some 0 then
    match date_created with
    | some d => if d ≠ "" then (parseIntStr (takeStr d 4)).map some else some mdYear
    | none => some mdYear
  else some mdYear

/-- Embedding of `refine_project` (lines 397-453).  A lookup that lands in
`refined_projects` always fails: line 427 reads `raw_project['detected_title']`,
a key that dict does not have, and the `KeyError` is caught by the
`except Exception` which rolls back and returns `False`.  A raw lookup builds
the `INSERT INTO refined_projects` row; the rating `CHECK` constraint failing
(`sqlite3.IntegrityError`) is likewise caught, rolled back, and reported as
`False` with no row created. -/
def refine_project (db : DB) (raw_id : Nat) (md : Metadata) : DB × Bool :=
  match show_project_details db raw_id with
  | none => (db, false)
  | some (.refined _) => (db, false)
  | some (.raw rp) =>
    match computeYear md.year rp.date_created with
    | none => (db, false)
    | some year =>
      if ratingOk md.rating then
        (⟨db.raw, db.refined ++
            [⟨db.refinedNextId, some raw_id, md.title.getD rp.detected_title,
              md.description, md.genre, md.bpm, md.key_signature, year,
              md.status.getD "complete", md.rating, md.tags, md.collaboration,
              rp.project_file_path, rp.project_folder_path, rp.daw_type,
              rp.file_size_mb, rp.date_created⟩],
          db.rejected, db.rawNextId, db.refinedNextId + 1, db.rejectedNextId⟩, true)
      else (db, false)

/-- Names actually bound as methods on the `MusicTracker` class (the `def`
statements in the class body, lines 22-694).  `list_raw_projects` and
`reject_project` are NOT among them: their bodies sit unreachable after the
`return` statements of `list_refined_projects` (line 301) and `open_project`
(line 490), so calling them raises `AttributeError`. -/
def musicTrackerMethods : List String :=
  ["__init__", "setup_database", "detect_daw_projects", "_should_skip_file",
   "_analyze_project_file", "add_directory", "list_refined_projects",
   "show_project_details", "run_analytics", "refine_project", "open_project",
   "interactive_review", "_display_project_details", "_interactive_refine",
   "stats"]

/-- The orphaned `reject_project` body (lines 491-519, dead code inside
`open_project`): modelled as the method it was meant to be.  On a raw lookup
it inserts one `rejected_projects` row copying the discovered record's path,
title and format next to the given reason; a lookup landing in
`refined_projects` raises `KeyError` on `detected_title` (caught, `False`);
a missing record returns `False`. -/
def reject_project_body (db : DB) (raw_id : Nat) (reason : String) : DB × Bool :=
  match show_project_details db raw_id with
  | none => (db, false)
  | some (.refined _) => (db, false)
  | some (.raw rp) =>
    (⟨db.raw, db.refined,
      db.rejected ++
        [⟨db.rejectedNextId, some raw_id, some reason, rp.project_file_path,
          some rp.detected_title, some rp.daw_type⟩],
      db.rawNextId, db.refinedNextId, db.rejectedNextId + 1⟩, true)

/-! ## Helper lemmas about scanning -/

/-- Inserting keeps every path that was already present. -/
theorem pathExists_mono (db : DB) (p : ProjectInfo) (q : String)
    (h : pathExists db q = true) : pathExists (insertRawProject db p).1 q = true := by
  unfold insertRawProject
  by_cases hc : pathExists db p.project_file_path
  · rw [if_pos hc]
    exact h
  · rw [if_neg hc]
    unfold pathExists at h ⊢
    simp [List.any_append, h]

/-- After inserting a candidate its path is present. -/
theorem pathExists_insert_self (db : DB) (p : ProjectInfo) :
    pathExists (insertRawProject db p).1 p.project_file_path = true := by
  unfold insertRawProject
  by_cases hc : pathExists db p.project_file_path
  · rw [if_pos hc]
    exact hc
  · rw [if_neg hc]
    simp [pathExists, List.any_append, rawOfInfo]

/-- A whole scan keeps every path that was already present. -/
theorem add_directory_preserves_pathExists (ps : List ProjectInfo) :
    ∀ (db : DB) (q : String), pathExists db q = true →
      pathExists (add_directory db ps).1 q = true := by
  induction ps with
  | nil => intro db q h; exact h
  | cons p t ih =>
    intro db q h
    simp only [add_directory]
    exact ih _ q (pathExists_mono db p q h)

/-- After a scan, every candidate's path is present. -/
theorem add_directory_mem_pathExists (ps : List ProjectInfo) :
    ∀ (db : DB) (p : ProjectInfo), p ∈ ps →
      pathExists (add_directory db ps).1 p.project_file_path = true := by
  induction ps with
  | nil => intro db p h; cases h
  | cons q t ih =>
    intro db p h
    simp only [add_directory]
    rcases List.mem_cons.mp h with h | h
    · subst h
      exact add_directory_preserves_pathExists t _ _ (pathExists_insert_self db p)
    · exact ih _ p h

/-- Scanning candidates whose paths are all present changes nothing and adds
zero rows. -/
theorem add_directory_noop (ps : List ProjectInfo) :
    ∀ db : DB, (∀ p ∈ ps, pathExists db p.project_file_path = true) →
      add_directory db ps = (db, 0) := by
  induction ps with
  | nil => intro db _; rfl
  | cons q t ih =>
    intro db h
    have hq : pathExists db q.project_file_path = true := h q (List.mem_cons_self _ _)
    simp only [add_directory, insertRawProject, if_pos hq]
    rw [ih db fun p hp => h p (List.mem_cons_of_mem _ hp)]
    rfl

/-! ## Claim C2 — re-scanning inserts nothing new -/

/-- C2: running the same scan twice in a row (same candidate records, no
filesystem change in between) makes the second run a complete no-op: it adds
zero discovered rows and the store is unchanged — each duplicate insert is
absorbed as "already exists" rather than an error, and the added count reports
only genuinely new paths. -/
theorem second_scan_inserts_nothing (db : DB) (ps : List ProjectInfo) :
    add_directory (add_directory db ps).1 ps = ((add_directory db ps).1, 0) :=
  add_directory_noop ps _ fun p hp => add_directory_mem_pathExists ps db p hp

/-! ## Claim C9 — a scan never touches curated or discarded records -/

/-- C9: `add_directory` writes only to the discovered table: the curated and
discarded record lists (and their id counters) are identical before and after
any scan, whatever the prior store state. -/
theorem scan_preserves_curated_and_discarded (db : DB) (ps : List ProjectInfo) :
    (add_directory db ps).1.refined = db.refined ∧
    (add_directory db ps).1.rejected = db.rejected ∧
    (add_directory db ps).1.refinedNextId = db.refinedNextId ∧
    (add_directory db ps).1.rejectedNextId = db.rejectedNextId := by
  induction ps generalizing db with
  | nil => exact ⟨rfl, rfl, rfl, rfl⟩
  | cons p t ih =>
    simp only [add_directory]
    have hins : (insertRawProject db p).1.refined = db.refined ∧
        (insertRawProject db p).1.rejected = db.rejected ∧
        (insertRawProject db p).1.refinedNextId = db.refinedNextId ∧
        (insertRawProject db p).1.rejectedNextId = db.rejectedNextId := by
      unfold insertRawProject
      split <;> exact ⟨rfl, rfl, rfl, rfl⟩
    obtain ⟨h1, h2, h3, h4⟩ := ih (insertRawProject db p).1
    exact ⟨h1.trans hins.1, h2.trans hins.2.1, h3.trans hins.2.2.1, h4.trans hins.2.2.2⟩

/-! ## Claim C7 — rating validation on promotion -/

/-- Invariant on a stored curated row: a non-null rating lies in `[1, 10]`. -/
def ratingInvariant (p : RefinedProject) : Prop :=
  ∀ r : Int, p.rating = some r → 1 ≤ r ∧ r ≤ 10

/-- C7: promoting with a rating outside `[1, 10]` (such as 0 or 11) fails —
the `CHECK` constraint rejects the insert, the transaction rolls back, and the
store is returned unchanged with `False` — and consequently the promote
operation preserves the invariant that every stored curated record with a
non-null rating has it in `[1, 10]`. -/
theorem refine_rating_validation :
    (∀ (db : DB) (raw_id : Nat) (md : Metadata) (r : Int),
      md.rating = some r → ¬(1 ≤ r ∧ r ≤ 10) →
        refine_project db raw_id md = (db, false)) ∧
    (∀ (db : DB) (raw_id : Nat) (md : Metadata),
      (∀ p ∈ db.refined, ratingInvariant p) →
        ∀ p ∈ (refine_project db raw_id md).1.refined, ratingInvariant p) := by
  constructor
  · intro db raw_id md r hr hout
    have hbad : ratingOk md.rating = false := by
      rw [hr]
      simp only [ratingOk, Bool.and_eq_false_iff, decide_eq_false_iff_not]
      omega
    cases hsd : show_project_details db raw_id with
    | none => simp [refine_project, hsd]
    | some d =>
      cases d with
      | refined p => simp [refine_project, hsd]
      | raw rp =>
        cases hy : computeYear md.year rp.date_created with
        | none => simp [refine_project, hsd, hy]
        | some year => simp [refine_project, hsd, hy, hbad]
  · intro db raw_id md hinv p hp
    revert hp
    cases hsd : show_project_details db raw_id with
    | none =>
      simp only [refine_project, hsd]
      exact hinv p
    | some d =>
      cases d with
      | refined q =>
        simp only [refine_project, hsd]
        exact hinv p
      | raw rp =>
        cases hy : computeYear md.year rp.date_created with
        | none =>
          simp only [refine_project, hsd, hy]
          exact hinv p
        | some year =>
          by_cases hrt : ratingOk md.rating
          · simp only [refine_project, hsd, hy, if_pos hrt]
            intro hp
            rcases List.mem_append.mp hp with hold | hnew
            · exact hinv p hold
            · have hpeq := List.mem_singleton.mp hnew
              subst hpeq
              intro r hr
              simp only at hr
              rw [hr] at hrt
              simp only [ratingOk, Bool.and_eq_true, decide_eq_true_eq] at hrt
              exact hrt
          · simp only [refine_project, hsd, hy, if_neg hrt]
            exact hinv p

/-- Discovered record used by the lifecycle examples. -/
def exRaw1 : RawProject :=
  ⟨1, "/music/track1.flp", none, "FL Studio", "track1", some 150,
    some "2024-05-25", some "2024-06-01", none, none⟩

/-- Discarded row referencing discovered record 1. -/
def exRej1 : RejectedProject :=
  ⟨1, some 1, some "Not useful", "/music/track1.flp", some "track1", some "FL Studio"⟩

/-- Store in which discovered record 1 exists and has already been discarded. -/
def exDB3 : DB := ⟨[exRaw1], [], [exRej1], 2, 1, 2⟩

/-- Valid promotion metadata (rating 8). -/
def exMD3 : Metadata := { rating := some 8 }

/-- Out-of-range promotion metadata (rating 11). -/
def exMDbad : Metadata := { rating := some 11 }

/-- C7 witness: promoting record 1 with rating 11 leaves the store unchanged
and reports failure. -/
theorem refine_rating_validation_witness :
    refine_project exDB3 1 exMDbad = (exDB3, false) :=
  refine_rating_validation.1 exDB3 1 exMDbad 11 rfl (by decide)

/-! ## Claim C3 — no state-conflict guard on the lifecycle transitions -/

/-- C3 counterexample: discovered record 1 of `exDB3` is already discarded
(its id is referenced from the discarded set), yet promoting it SUCCEEDS and
creates a curated record referencing it — there is no state-conflict error, so
an identifier can appear in both the curated and the discarded sets. -/
theorem promote_after_discard_counterexample :
    exDB3.rejected.map RejectedProject.raw_project_id = [some 1] ∧
    (refine_project exDB3 1 exMD3).2 = true ∧
    (refine_project exDB3 1 exMD3).1.refined.map RefinedProject.raw_project_id
      = [some 1] := by
  refine ⟨by decide, by decide, by decide⟩

/-- C3 amended: the promote operation checks only that the discovered record
exists (and that the supplied metadata passes validation); it never inspects
the discarded set.  Promoting an already-discarded identifier therefore
succeeds, appends a curated record referencing that identifier, and leaves the
discarded set untouched — the state-conflict failure the claim describes does
not exist in the code. -/
theorem promote_ignores_discarded_state (db : DB) (raw_id : Nat) (md : Metadata)
    (rp : RawProject) (year : Option Int)
    (hfind : show_project_details db raw_id = some (.raw rp))
    (hyear : computeYear md.year rp.date_created = some year)
    (hrt : ratingOk md.rating = true) :
    (refine_project db raw_id md).2 = true ∧
    (refine_project db raw_id md).1.refined.map RefinedProject.raw_project_id
      = db.refined.map RefinedProject.raw_project_id ++ [some raw_id] ∧
    (refine_project db raw_id md).1.rejected = db.rejected := by
  simp only [refine_project, hfind, hyear, if_pos hrt]
  simp

/-- C3 witness for the amended statement, at the store where record 1 is
already discarded: promotion succeeds, the curated set gains a record
referencing id 1, and the discarded set is untouched. -/
theorem promote_ignores_discarded_state_witness :
    (refine_project exDB3 1 exMD3).2 = true ∧
    (refine_project exDB3 1 exMD3).1.refined.map RefinedProject.raw_project_id
      = [some 1] ∧
    (refine_project exDB3 1 exMD3).1.rejected = exDB3.rejected := by
  have h := promote_ignores_discarded_state exDB3 1 exMD3 exRaw1 (some 2024)
    rfl (by decide) rfl
  refine ⟨h.1, ?_, h.2.2⟩
  rw [h.2.1]
  decide

/-! ## Claim C8 — the discard operation does not exist as a method -/

/-- Store holding one unprocessed discovered record. -/
def exDB8 : DB :=
  ⟨[⟨1, "/music/beat.flp", none, "FL Studio", "beat", some 250,
      some "2023-01-02", some "2023-01-03", none, none⟩], [], [], 2, 1, 1⟩

/-- C8: the claim describes what `reject_project` should do, and both callers
(`interactive_review` line 562, `main` line 799 — the latter with the argparse
default reason `"Not useful"`) expect it, but the class defines no such
method: its body is unreachable dead code after the `return` statements of
`open_project`, so every discard attempt raises `AttributeError`.  Had the
orphaned body been a method, it would behave exactly as claimed: one discarded
row with the back-reference and the copied path/title/format. -/
theorem reject_project_method_missing :
    ¬ ("reject_project" ∈ musicTrackerMethods) ∧
    ¬ ("list_raw_projects" ∈ musicTrackerMethods) ∧
    (reject_project_body exDB8 1 "Not useful").2 = true ∧
    (reject_project_body exDB8 1 "Not useful").1.rejected
      = [⟨1, some 1, some "Not useful", "/music/beat.flp", some "beat",
          some "FL Studio"⟩] := by
  refine ⟨by decide, by decide, by decide, by decide⟩
